import Mathlib

/-!
Verification of the server-list filter pipeline of the `djchat` repository
(`src/server/views.py`, class `ServerListViewSet`).

The pipeline `get_filtered_queryset` reads the raw query parameters
(`category`, `qty`, `by_user`, `by_serverid`, `with_num_members`) and the
request's authentication context, and turns the server collection into a
filtered, possibly annotated, possibly truncated ordered collection, or
raises one of two exceptions: `AuthenticationFailed` or `ValidationError`.

The Django queryset is embedded as a Lean list of rows; `filter` is
`List.filter`, `annotate(num_members=Count("member"))` counts over the
member join — the record's full member count, except that after
`filter(member=request.user.id)` Django reuses the narrowed join and the
count runs only over the rows matching the requesting user (the documented
non-commutativity of `filter()` and `annotate()` on a multi-valued
relation) — and slicing `queryset[: int(qty)]` is `List.take` for a
nonnegative bound (the Django queryset rejects a negative slice bound with
`ValueError`, which the surrounding `except ValueError` handler converts to
the same `ValidationError` as a non-coercible `qty`).  Python exceptions
short-circuit the rest of the pipeline, which is rendered by explicit
propagation of the `Except.error` case.
-/

namespace DjChat

/-- A character removed by Python's `int(str)` surrounding-whitespace
stripping (ASCII whitespace). -/
def isPySpace (c : Char) : Bool :=
  c = ' ' || c = '\t' || c = '\n' || c = '\r' || c = '\x0b' || c = '\x0c'

/-- Strip leading and trailing whitespace, as Python `int(...)` does on a
string argument. -/
def pyStrip (l : List Char) : List Char :=
  ((l.dropWhile isPySpace).reverse.dropWhile isPySpace).reverse

/-- Continue a digit run of a Python integer literal: further digits, with a
single underscore allowed between two digits. -/
def digitsCore : List Char → Nat → Option Nat
  | [], acc => some acc
  | ['_'], _ => none
  | '_' :: c :: rest, acc =>
      if c.isDigit then digitsCore rest (acc * 10 + (c.toNat - 48)) else none
  | c :: rest, acc =>
      if c.isDigit then digitsCore rest (acc * 10 + (c.toNat - 48)) else none

/-- Parse a non-empty digit run (underscore separators allowed only between
digits), the body of a Python decimal integer literal. -/
def parseDigits : List Char → Option Nat
  | [] => none
  | c :: rest => if c.isDigit then digitsCore rest (c.toNat - 48) else none

/-- Embedding of Python `int(s)` on a string (ASCII): optional surrounding
whitespace, an optional sign, then a digit run.  `none` models the
`ValueError` that `int` raises on any other shape. -/
def pyInt? (s : String) : Option Int :=
  match pyStrip s.data with
  | '+' :: rest => (parseDigits rest).map (fun n => (n : Int))
  | '-' :: rest => (parseDigits rest).map (fun n => -(n : Int))
  | rest => (parseDigits rest).map (fun n => (n : Int))

/-- The exception values the pipeline can raise: `AuthenticationFailed()`
(no detail used) and `ValidationError(detail=...)`. -/
inductive FilterError where
  | authenticationFailed : FilterError
  | validationError (detail : String) : FilterError
deriving DecidableEq

/-- The exception class of a raised error, forgetting the detail message.
This is the granularity at which the REST layer maps exceptions to status
codes (`AuthenticationFailed` vs `ValidationError`). -/
inductive ErrorClass where
  | authenticationFailedClass : ErrorClass
  | validationErrorClass : ErrorClass
deriving DecidableEq

/-- Class of an exception value. -/
def FilterError.cls : FilterError → ErrorClass
  | .authenticationFailed => .authenticationFailedClass
  | .validationError _ => .validationErrorClass

/-- Modelled from the spec: the `Server` record of the data model
(`models.py` is not among the available sources).  A server has an integer
`id`, a `name`, a reference to a `Category` (represented by the category's
`name`, the field the pipeline filters on via `category__name`), and a
many-to-many `member` association with user identities, represented as the
list of distinct associated user ids. -/
structure Server where
  id : Int
  name : String
  categoryName : String
  members : List Int
deriving DecidableEq

/-- A row of the working queryset: a server record, optionally augmented
with the `num_members` annotation. -/
structure Row where
  server : Server
  num_members : Option Nat
deriving DecidableEq

/-- Modelled from the spec: the per-request authentication context
(`request.user`): `is_authenticated`, and the user id `request.user.id`
(only read on the authenticated branch). -/
structure AuthContext where
  is_authenticated : Bool
  user_id : Int
deriving DecidableEq

/-- The raw query parameters as `request.query_params.get(...)` returns
them: `none` when the parameter is absent, otherwise the raw string. -/
structure QueryParams where
  category : Option String
  qty : Option String
  by_user : Option String
  by_serverid : Option String
  with_num_members : Option String
deriving DecidableEq

/-- Embedding of `request.query_params.get(name) == "true"`: the boolean
parameters are truthy exactly when the raw value is the literal `"true"`
(absence gives Python `None`, which compares unequal). -/
def parseBoolParam (raw : Option String) : Bool :=
  raw == some "true"

/-- Initial row of the queryset: a bare server record, not yet annotated. -/
def toRow (s : Server) : Row :=
  { server := s, num_members := none }

/-- Embedding of the category step: `if category:` then
`queryset.filter(category__name=category)` (case-sensitive exact match);
an absent or empty parameter is falsy and skips the filter. -/
def applyCategory (category : Option String) (queryset : List Row) : List Row :=
  match category with
  | none => queryset
  | some c =>
      if c.isEmpty then queryset
      else queryset.filter (fun r => r.server.categoryName == c)

/-- Embedding of the by-user step: `if by_user:` then either
`queryset.filter(member=request.user.id)` when authenticated, or
`raise AuthenticationFailed()`. -/
def applyByUser (auth : AuthContext) (by_user : Bool) (queryset : List Row) :
    Except FilterError (List Row) :=
  if by_user then
    if auth.is_authenticated then
      .ok (queryset.filter (fun r => r.server.members.contains auth.user_id))
    else
      .error .authenticationFailed
  else
    .ok queryset

/-- Embedding of `queryset.annotate(num_members=Count("member"))` guarded by
`if with_num_members:`.  `memberJoinUser` records whether the queryset
already joins the member relation narrowed by
`filter(member=request.user.id)` (the by-user branch): Django then reuses
that join, and `Count("member")` counts only the join rows matching that
user; without such a filter it is the record's full member count.  With
`with_num_members` false the queryset is unchanged. -/
def annotateNumMembers (memberJoinUser : Option Int) (with_num_members : Bool)
    (queryset : List Row) : List Row :=
  if with_num_members then
    queryset.map (fun r =>
      { r with
        num_members := some (match memberJoinUser with
          | none => r.server.members.length
          | some uid => (r.server.members.filter (fun m => m == uid)).length) })
  else
    queryset

/-- Embedding of `ServerListViewSet.filter_by_server_id`: reject an
unauthenticated caller first; then `queryset.filter(id=by_serverid)`, whose
integer coercion of the raw string raises `ValueError` (caught and turned
into `ValidationError("Server id must be an integer")`); then
`if not queryset.exists()` raise
`ValidationError(f"Server with id-{by_serverid} not found")`. -/
def filter_by_server_id (auth : AuthContext) (queryset : List Row)
    (by_serverid : String) : Except FilterError (List Row) :=
  if !auth.is_authenticated then
    .error .authenticationFailed
  else
    match pyInt? by_serverid with
    | none => .error (.validationError "Server id must be an integer")
    | some n =>
        let narrowed := queryset.filter (fun r => r.server.id == n)
        if narrowed.isEmpty then
          .error (.validationError ("Server with id-" ++ by_serverid ++ " not found"))
        else
          .ok narrowed

/-- Embedding of `ServerListViewSet.limit_results`:
`queryset[: int(qty)]` inside `except ValueError`, which catches both a
non-coercible `qty` and the `ValueError` the Django queryset raises for a
negative slice bound, re-raising
`ValidationError("qty must be an integer")`. -/
def limit_results (queryset : List Row) (qty : String) :
    Except FilterError (List Row) :=
  match pyInt? qty with
  | none => .error (.validationError "qty must be an integer")
  | some n =>
      if n < 0 then
        .error (.validationError "qty must be an integer")
      else
        .ok (queryset.take n.toNat)

/-- The by-server-id step of the pipeline: `if by_serverid:` guards the call
to `filter_by_server_id` (absent or empty parameter is falsy). -/
def applyServerIdStep (auth : AuthContext) (by_serverid : Option String)
    (queryset : List Row) : Except FilterError (List Row) :=
  match by_serverid with
  | none => .ok queryset
  | some sid =>
      if sid.isEmpty then .ok queryset
      else filter_by_server_id auth queryset sid

/-- The quantity step of the pipeline: `if qty:` guards the call to
`limit_results` (absent or empty parameter is falsy). -/
def applyQtyStep (queryset : List Row) (qty : Option String) :
    Except FilterError (List Row) :=
  match qty with
  | none => .ok queryset
  | some q =>
      if q.isEmpty then .ok queryset
      else limit_results queryset q

/-- Embedding of `ServerListViewSet.get_filtered_queryset`: parse the
parameters, then apply, in this order, the category filter, the by-user
filter, the member-count annotation, the by-server-id filter and the
quantity limit.  A raised exception propagates immediately, skipping the
remaining steps. -/
def get_filtered_queryset (auth : AuthContext) (params : QueryParams)
    (servers : List Server) : Except FilterError (List Row) :=
  let queryset := servers.map toRow
  let queryset := applyCategory params.category queryset
  match applyByUser auth (parseBoolParam params.by_user) queryset with
  | .error e => .error e
  | .ok queryset =>
      let queryset := annotateNumMembers
        (if parseBoolParam params.by_user then some auth.user_id else none)
        (parseBoolParam params.with_num_members) queryset
      match applyServerIdStep auth params.by_serverid queryset with
      | .error e => .error e
      | .ok queryset => applyQtyStep queryset params.qty

/-! ## Helper lemmas -/

/-- For an authenticated caller the by-user step never raises: it returns
the (possibly member-narrowed) queryset. -/
theorem applyByUser_ok (auth : AuthContext) (b : Bool) (queryset : List Row)
    (hauth : auth.is_authenticated = true) :
    applyByUser auth b queryset =
      .ok (if b then queryset.filter (fun r => r.server.members.contains auth.user_id)
           else queryset) := by
  cases b <;> simp [applyByUser, hauth]

/-- Character data of the not-found detail message. -/
theorem notFound_data (sid : String) :
    ("Server with id-" ++ sid ++ " not found").data
      = ("Server with id-".data ++ sid.data) ++ " not found".data := by
  simp [String.data_append]

/-- The not-found detail message differs from any string whose character at
index 7 is not the letter of `with` found there. -/
theorem notFound_msg_ne (sid t : String) (h7 : t.data[7]? ≠ some 'w') :
    ("Server with id-" ++ sid ++ " not found") ≠ t := by
  intro h
  apply h7
  have hd := congrArg String.data h
  rw [notFound_data] at hd
  have h7' := congrArg (fun l : List Char => l[7]?) hd
  simp only at h7'
  rw [List.getElem?_append_left (by simp),
    List.getElem?_append_left (by norm_num)] at h7'
  rw [← h7']
  rfl

/-! ## Claims -/

/-- C1: for every combination of the other query parameters, `by_user=true`
with an unauthenticated caller makes the pipeline fail with the
authentication error; the result is that error whatever
`with_num_members`, `by_serverid` and `qty` hold, so no later step
(annotation, by-server-id filter, quantity limit) contributes to it. -/
theorem by_user_unauthenticated_fails
    (auth : AuthContext) (params : QueryParams) (servers : List Server)
    (hauth : auth.is_authenticated = false)
    (hbu : params.by_user = some "true") :
    get_filtered_queryset auth params servers = .error .authenticationFailed := by
  simp [get_filtered_queryset, applyByUser, parseBoolParam, hbu, hauth]

/-- Witness for C1 at a concrete input that also supplies every other
parameter (with values that would otherwise trigger the category filter,
the annotation, an invalid server id and an invalid quantity). -/
theorem by_user_unauthenticated_fails_witness :
    (⟨false, 0⟩ : AuthContext).is_authenticated = false
  ∧ (⟨some "Gaming", some "abc", some "true", some "abc", some "true"⟩ :
      QueryParams).by_user = some "true"
  ∧ get_filtered_queryset ⟨false, 0⟩
      ⟨some "Gaming", some "abc", some "true", some "abc", some "true"⟩
      [⟨1, "a", "Gaming", [5]⟩]
      = .error .authenticationFailed :=
  ⟨rfl, rfl, by_user_unauthenticated_fails _ _ _ rfl rfl⟩

/-- C2: when `category`, `qty` and `with_num_members` are supplied (and the
by-user and by-server-id filters are not requested, so no step raises), the
pipeline is exactly: narrow by category first, then annotate every remaining
record with its member count, then truncate to the first `qty` records. -/
theorem category_annotate_qty_order
    (auth : AuthContext) (params : QueryParams) (servers : List Server)
    (c q : String) (n : Int)
    (hc : params.category = some c) (hcne : c.isEmpty = false)
    (hq : params.qty = some q) (hn : pyInt? q = some n) (hpos : 0 ≤ n)
    (hw : params.with_num_members = some "true")
    (hbu : parseBoolParam params.by_user = false)
    (hsid : params.by_serverid = none) :
    get_filtered_queryset auth params servers =
      .ok (((servers.filter (fun s => s.categoryName == c)).map
          (fun s => ({ server := s, num_members := some s.members.length } : Row))).take
        n.toNat) := by
  have hqne : q.isEmpty = false := by
    cases hqe : q.isEmpty
    · rfl
    · rw [String.isEmpty_iff] at hqe
      rw [hqe] at hn
      rw [show pyInt? "" = (none : Option Int) from rfl] at hn
      exact Option.noConfusion hn
  have hwm : parseBoolParam params.with_num_members = true := by
    rw [hw]; rfl
  simp only [get_filtered_queryset, hbu, hwm, hc, hsid, applyCategory, hcne,
    Bool.false_eq_true, if_false, applyByUser, applyServerIdStep,
    annotateNumMembers, if_true, applyQtyStep, hq, hqne, limit_results, hn]
  rw [if_neg (not_lt.mpr hpos)]
  rw [List.filter_map, List.map_map]
  rfl

/-- Witness for C2 at the concrete input of the claim: `category="X"`,
`qty="1"`, `with_num_members=true` on a three-server collection yields
exactly the first record of the annotated, category-narrowed collection. -/
theorem category_annotate_qty_order_witness :
    pyInt? "1" = some (1 : Int)
  ∧ parseBoolParam none = false
  ∧ get_filtered_queryset ⟨true, 1⟩ ⟨some "X", some "1", none, none, some "true"⟩
      [⟨1, "a", "X", [5, 6]⟩, ⟨2, "b", "Y", []⟩, ⟨3, "c", "X", []⟩]
      = .ok [⟨⟨1, "a", "X", [5, 6]⟩, some 2⟩] :=
  ⟨rfl, rfl,
    category_annotate_qty_order ⟨true, 1⟩ _ _ "X" "1" 1 rfl rfl rfl rfl
      (by norm_num) rfl rfl rfl⟩

/-- C4 counterexample: on a five-record collection, the non-positive value
`qty="-1"` does not yield a slice — the pipeline raises the
invalid-parameter error (the Django queryset rejects a negative slice bound
with `ValueError`, which `limit_results` catches and re-raises as
`ValidationError("qty must be an integer")`). -/
theorem negative_qty_raises :
    get_filtered_queryset ⟨true, 1⟩ ⟨none, some "-1", none, none, none⟩
      [⟨1, "a", "X", []⟩, ⟨2, "b", "X", []⟩, ⟨3, "c", "X", []⟩,
        ⟨4, "d", "X", []⟩, ⟨5, "e", "X", []⟩]
      = .error (.validationError "qty must be an integer") := rfl

/-- C4 amended: for an integer-coercible `qty` with nonnegative value the
quantity step returns the first `min(qty, length)` leading records in their
existing order (zero yields the empty slice, an oversized value leaves the
collection unchanged); a negative value raises the invalid-parameter error
instead of slicing. -/
theorem limit_results_slices
    (queryset : List Row) (qty : String) (n : Int)
    (hn : pyInt? qty = some n) :
    (0 ≤ n →
      limit_results queryset qty = .ok (queryset.take n.toNat)
      ∧ (queryset.take n.toNat).length = min n.toNat queryset.length
      ∧ (queryset.length ≤ n.toNat → queryset.take n.toNat = queryset))
  ∧ (n < 0 →
      limit_results queryset qty
        = .error (.validationError "qty must be an integer")) := by
  constructor
  · intro hpos
    refine ⟨?_, ?_, fun hle => List.take_of_length_le hle⟩
    · simp [limit_results, hn, not_lt.mpr hpos]
    · simp [List.length_take]
  · intro hneg
    simp [limit_results, hn, hneg]

/-- Witness for C4 (amended) at the concrete input of the claim:
`qty="2"` on a collection of five records yields exactly the first two, in
original order. -/
theorem limit_results_slices_witness :
    pyInt? "2" = some (2 : Int)
  ∧ limit_results
      [⟨⟨1, "a", "X", []⟩, none⟩, ⟨⟨2, "b", "X", []⟩, none⟩,
        ⟨⟨3, "c", "X", []⟩, none⟩, ⟨⟨4, "d", "X", []⟩, none⟩,
        ⟨⟨5, "e", "X", []⟩, none⟩] "2"
      = .ok [⟨⟨1, "a", "X", []⟩, none⟩, ⟨⟨2, "b", "X", []⟩, none⟩] :=
  ⟨rfl, ((limit_results_slices _ "2" 2 rfl).1 (by norm_num)).1⟩

/-- C5: for an authenticated caller, a non-empty integer-coercible
`by_serverid` that matches no record of the already narrowed collection
makes the pipeline fail with the not-found error
`"Server with id-{by_serverid} not found"`, whose message contains the
identifier. -/
theorem serverid_no_match_not_found
    (auth : AuthContext) (params : QueryParams) (servers : List Server)
    (sid : String) (n : Int) (mid : List Row)
    (hauth : auth.is_authenticated = true)
    (hsid : params.by_serverid = some sid) (hne : sid.isEmpty = false)
    (hn : pyInt? sid = some n)
    (hmid : applyByUser auth (parseBoolParam params.by_user)
        (applyCategory params.category (servers.map toRow)) = .ok mid)
    (hmatch : (annotateNumMembers
        (if parseBoolParam params.by_user then some auth.user_id else none)
        (parseBoolParam params.with_num_members) mid).filter
        (fun r => r.server.id == n) = []) :
    get_filtered_queryset auth params servers
        = .error (.validationError ("Server with id-" ++ sid ++ " not found"))
  ∧ sid.data <:+: ("Server with id-" ++ sid ++ " not found").data := by
  constructor
  · simp only [get_filtered_queryset, hmid, applyServerIdStep, hsid, hne,
      Bool.false_eq_true, if_false, filter_by_server_id, hauth,
      Bool.not_true, hn, hmatch, List.isEmpty_nil, if_true]
  · exact ⟨"Server with id-".data, " not found".data, by rw [notFound_data]⟩

/-- Witness for C5 at the concrete input of the claim: `by_serverid="99999"`
against a collection that has no record with id 99999. -/
theorem serverid_no_match_not_found_witness :
    pyInt? "99999" = some (99999 : Int)
  ∧ get_filtered_queryset ⟨true, 1⟩ ⟨none, none, none, some "99999", none⟩
      [⟨7, "a", "X", []⟩]
      = .error (.validationError "Server with id-99999 not found")
  ∧ "99999".data <:+: ("Server with id-" ++ "99999" ++ " not found").data :=
  have h := serverid_no_match_not_found ⟨true, 1⟩
    ⟨none, none, none, some "99999", none⟩ [⟨7, "a", "X", []⟩]
    "99999" 99999 [⟨⟨7, "a", "X", []⟩, none⟩] rfl rfl rfl rfl rfl rfl
  ⟨rfl, h.1, h.2⟩

/-- C6: for an authenticated caller, a non-empty `by_serverid` that is not
integer-coercible makes the pipeline fail with the invalid-parameter error
whose message is exactly `"Server id must be an integer"`. -/
theorem serverid_not_integer_invalid
    (auth : AuthContext) (params : QueryParams) (servers : List Server)
    (sid : String)
    (hauth : auth.is_authenticated = true)
    (hsid : params.by_serverid = some sid) (hne : sid.isEmpty = false)
    (hbad : pyInt? sid = none) :
    get_filtered_queryset auth params servers
      = .error (.validationError "Server id must be an integer") := by
  rw [get_filtered_queryset,
    applyByUser_ok auth (parseBoolParam params.by_user) _ hauth]
  simp only [applyServerIdStep, hsid, hne, Bool.false_eq_true, if_false,
    filter_by_server_id, hauth, Bool.not_true, hbad]

/-- Witness for C6 at the concrete input of the claim:
`by_serverid="abc"`. -/
theorem serverid_not_integer_invalid_witness :
    pyInt? "abc" = none
  ∧ get_filtered_queryset ⟨true, 1⟩ ⟨none, none, none, some "abc", none⟩
      [⟨1, "a", "X", []⟩]
      = .error (.validationError "Server id must be an integer") :=
  ⟨rfl, serverid_not_integer_invalid ⟨true, 1⟩ _ _ "abc" rfl rfl rfl rfl⟩

/-- C7: a non-empty `qty` that is not integer-coercible makes the pipeline
fail with the invalid-parameter error whose message is exactly
`"qty must be an integer"`, whenever the earlier by-user and by-server-id
steps pass. -/
theorem qty_not_integer_invalid
    (auth : AuthContext) (params : QueryParams) (servers : List Server)
    (q : String) (mid mid2 : List Row)
    (hq : params.qty = some q) (hne : q.isEmpty = false)
    (hbad : pyInt? q = none)
    (hmid : applyByUser auth (parseBoolParam params.by_user)
        (applyCategory params.category (servers.map toRow)) = .ok mid)
    (hsid : applyServerIdStep auth params.by_serverid
        (annotateNumMembers
          (if parseBoolParam params.by_user then some auth.user_id else none)
          (parseBoolParam params.with_num_members) mid)
        = .ok mid2) :
    get_filtered_queryset auth params servers
      = .error (.validationError "qty must be an integer") := by
  simp only [get_filtered_queryset, hmid, hsid, applyQtyStep, hq, hne,
    Bool.false_eq_true, if_false, limit_results, hbad]

/-- Witness for C7 at the concrete input of the claim: `qty="abc"`. -/
theorem qty_not_integer_invalid_witness :
    pyInt? "abc" = none
  ∧ get_filtered_queryset ⟨true, 1⟩ ⟨none, some "abc", none, none, none⟩
      [⟨1, "a", "X", []⟩]
      = .error (.validationError "qty must be an integer") :=
  ⟨rfl,
    qty_not_integer_invalid ⟨true, 1⟩ ⟨none, some "abc", none, none, none⟩
      [⟨1, "a", "X", []⟩] "abc" [⟨⟨1, "a", "X", []⟩, none⟩]
      [⟨⟨1, "a", "X", []⟩, none⟩] rfl rfl rfl rfl rfl⟩

/-- C3 counterexample: the not-found failure and the invalid-parameter
failure are raised with the same exception class.  At these concrete inputs
the pipeline raises `ValidationError("Server with id-99999 not found")` and
`ValidationError("qty must be an integer")`, and the two errors have equal
class — they are not distinguishable error kinds, contradicting the claim
that the not-found kind always differs from the invalid-parameter kind. -/
theorem not_found_same_kind_as_invalid :
    get_filtered_queryset ⟨true, 1⟩ ⟨none, none, none, some "99999", none⟩ []
        = .error (.validationError "Server with id-99999 not found")
  ∧ get_filtered_queryset ⟨true, 1⟩ ⟨none, some "abc", none, none, none⟩ []
        = .error (.validationError "qty must be an integer")
  ∧ (FilterError.validationError "Server with id-99999 not found").cls
        = (FilterError.validationError "qty must be an integer").cls :=
  ⟨rfl, rfl, rfl⟩

/-- C3 amended: the authentication failure is a distinguishable error kind,
but the not-found and invalid-parameter failures are both raised as the
same `ValidationError` class; they are distinguishable only by their detail
messages, and those messages always differ (a not-found detail never equals
either invalid-parameter detail). -/
theorem failure_kinds_distinguishable
    (auth : AuthContext) (queryset : List Row) (sid : String) (n : Int)
    (hauth : auth.is_authenticated = true)
    (hn : pyInt? sid = some n)
    (hempty : queryset.filter (fun r => r.server.id == n) = []) :
    filter_by_server_id auth queryset sid
        = .error (.validationError ("Server with id-" ++ sid ++ " not found"))
  ∧ (FilterError.validationError ("Server with id-" ++ sid ++ " not found")).cls
        = (FilterError.validationError "Server id must be an integer").cls
  ∧ ("Server with id-" ++ sid ++ " not found") ≠ "Server id must be an integer"
  ∧ ("Server with id-" ++ sid ++ " not found") ≠ "qty must be an integer"
  ∧ FilterError.authenticationFailed.cls
        ≠ (FilterError.validationError
            ("Server with id-" ++ sid ++ " not found")).cls := by
  refine ⟨?_, rfl, notFound_msg_ne sid _ (by decide),
    notFound_msg_ne sid _ (by decide), fun h => ErrorClass.noConfusion h⟩
  simp only [filter_by_server_id, hauth, Bool.not_true, Bool.false_eq_true,
    if_false, hn, hempty, List.isEmpty_nil, if_true]

/-- Witness for C3 (amended) at the concrete input `by_serverid="99999"`
on an empty collection. -/
theorem failure_kinds_distinguishable_witness :
    pyInt? "99999" = some (99999 : Int)
  ∧ filter_by_server_id ⟨true, 1⟩ [] "99999"
        = .error (.validationError "Server with id-99999 not found")
  ∧ ("Server with id-" ++ "99999" ++ " not found") ≠ "Server id must be an integer"
  ∧ ("Server with id-" ++ "99999" ++ " not found") ≠ "qty must be an integer" :=
  have h := failure_kinds_distinguishable ⟨true, 1⟩ [] "99999" 99999 rfl rfl rfl
  ⟨rfl, h.1, h.2.2.1, h.2.2.2.1⟩

/-- C8: a boolean query parameter parses to true exactly when its raw value
is the literal string `"true"`; `"True"`, `"1"`, the empty string and an
absent parameter all parse to false. -/
theorem bool_param_parsing (raw : Option String) :
    (parseBoolParam raw = true ↔ raw = some "true")
  ∧ parseBoolParam (some "True") = false
  ∧ parseBoolParam (some "1") = false
  ∧ parseBoolParam (some "") = false
  ∧ parseBoolParam none = false := by
  refine ⟨?_, rfl, rfl, rfl, rfl⟩
  simp [parseBoolParam]

/-- C9 counterexample: with `by_user=true` (authenticated as user 5) and
`with_num_members=true`, the annotation runs over the member join already
narrowed by `filter(member=5)`, so the remaining record gets
`num_members = 1` even though its count of distinct member associations is
3 — the annotation does not attach that count for every record remaining in
the collection. -/
theorem by_user_annotation_counts_filtered_join :
    get_filtered_queryset ⟨true, 5⟩ ⟨none, none, some "true", none, some "true"⟩
      [⟨1, "a", "X", [5, 6, 7]⟩]
      = .ok [⟨⟨1, "a", "X", [5, 6, 7]⟩, some 1⟩]
  ∧ (⟨1, "a", "X", [5, 6, 7]⟩ : Server).members.length = 3
  ∧ (1 : Nat) ≠ 3 :=
  ⟨rfl, rfl, by decide⟩

/-- C9 amended: when `with_num_members` is true every remaining record is
augmented with a `num_members` field and nothing else changes (the
underlying servers, their order and the length of the collection are
preserved).  Without an active by-user filter the value is the record's
count of distinct member associations; with the by-user filter active the
annotation counts over the reused, narrowed member join, so the value is
the count of the record's member associations with the requesting user. -/
theorem annotate_attaches_member_counts (queryset : List Row) (uid : Int) :
    (annotateNumMembers none true queryset
        = queryset.map (fun r =>
            { server := r.server, num_members := some r.server.members.length }))
  ∧ (annotateNumMembers (some uid) true queryset
        = queryset.map (fun r =>
            { server := r.server,
              num_members :=
                some ((r.server.members.filter (fun m => m == uid)).length) }))
  ∧ (annotateNumMembers none true queryset).map (fun r => r.server)
        = queryset.map (fun r => r.server)
  ∧ (annotateNumMembers (some uid) true queryset).map (fun r => r.server)
        = queryset.map (fun r => r.server)
  ∧ (annotateNumMembers none true queryset).length = queryset.length
  ∧ (annotateNumMembers (some uid) true queryset).length = queryset.length := by
  refine ⟨rfl, rfl, ?_, ?_, ?_, ?_⟩ <;> simp [annotateNumMembers]

/-- C10: in the by-server-id step the authentication check comes first: an
unauthenticated caller supplying any non-empty `by_serverid` — coercible or
not, matching or not — gets the authentication error, never the
invalid-parameter or not-found error. -/
theorem unauthenticated_serverid_fails_auth
    (auth : AuthContext) (params : QueryParams) (servers : List Server)
    (sid : String)
    (hauth : auth.is_authenticated = false)
    (hsid : params.by_serverid = some sid) (hne : sid.isEmpty = false) :
    get_filtered_queryset auth params servers = .error .authenticationFailed := by
  cases hb : parseBoolParam params.by_user
  · simp [get_filtered_queryset, hb, applyByUser, applyServerIdStep, hsid, hne,
      filter_by_server_id, hauth]
  · simp [get_filtered_queryset, hb, applyByUser, hauth]

/-- Witness for C10 at a concrete input whose `by_serverid` is not even
integer-coercible: the failure is still the authentication error, not the
invalid-parameter one. -/
theorem unauthenticated_serverid_fails_auth_witness :
    (⟨false, 0⟩ : AuthContext).is_authenticated = false
  ∧ (⟨none, none, none, some "abc", none⟩ : QueryParams).by_serverid = some "abc"
  ∧ "abc".isEmpty = false
  ∧ get_filtered_queryset ⟨false, 0⟩ ⟨none, none, none, some "abc", none⟩
      [⟨1, "a", "X", []⟩]
      = .error .authenticationFailed :=
  ⟨rfl, rfl, rfl, unauthenticated_serverid_fails_auth _ _ _ "abc" rfl rfl rfl⟩

end DjChat
